import Mathlib

/-!
Shallow embedding of the data-access layer in `src/djehuty/web/database.py`
(class `SparqlInterface`), covering value coercion, filter-fragment
construction, cache-invalidation traces, identifier allocation, startup
state loading, query-execution error handling, category/article link
replacement, and session-token account lookup.  Definitions are translated
from the Python source; parts of the repository that are imported by
`database.py` but whose source is not available (`djehuty.utils.counters`,
`djehuty.utils.rdf`, `djehuty.web.cache`, the SPARQL template files) are
modelled from the specification and marked as such in their doc comments.
-/

namespace Djehuty

/-! ## Value coercion (`SparqlInterface.__normalize_binding`, dateTime branch) -/

/-- A parsed `YYYY-MM-DDTHH:MM:SS` timestamp, the result of
`datetime.strptime(time_value, "%Y-%m-%dT%H:%M:%S")`. -/
structure DateTimeYmdHms where
  year : Nat
  month : Nat
  day : Nat
  hour : Nat
  minute : Nat
  second : Nat
deriving DecidableEq

/-- Gregorian leap-year rule, as used by Python's `datetime` validation. -/
def isLeapYear (y : Nat) : Bool :=
  (y % 4 == 0 && !(y % 100 == 0)) || y % 400 == 0

/-- Number of days in a month, as validated by Python's `datetime` constructor. -/
def daysInMonth (y m : Nat) : Nat :=
  if m = 2 then (if isLeapYear y then 29 else 28)
  else if m = 4 ∨ m = 6 ∨ m = 9 ∨ m = 11 then 30
  else 31

/-- Split a character list on a separator character, like Python's `str.split`
restricted to a one-character separator (the separators in the strptime format
are `T`, `-` and `:`). -/
def splitOnChar (sep : Char) : List Char → List (List Char)
  | [] => [[]]
  | c :: rest =>
      if c = sep then [] :: splitOnChar sep rest
      else
        match splitOnChar sep rest with
        | [] => [[c]]
        | piece :: more => (c :: piece) :: more

/-- Parse a non-empty all-digit character list as a natural number. -/
def digitsToNat? (l : List Char) : Option Nat :=
  if l.isEmpty then none
  else if l.all Char.isDigit then
    some (l.foldl (fun acc c => acc * 10 + (c.toNat - '0'.toNat)) 0)
  else none

/-- Parse a one- or two-digit strptime field constrained to `[lo, hi]`,
mirroring CPython's `_strptime` field patterns for `%m`, `%d`, `%H`, `%M`,
`%S` (one or two digits, range-checked, at most two characters). -/
def parseField (lo hi : Nat) (l : List Char) : Option Nat :=
  if l.length = 0 ∨ l.length > 2 then none
  else
    match digitsToNat? l with
    | some n => if lo ≤ n ∧ n ≤ hi then some n else none
    | none => none

/-- Parse the `%Y` strptime field: exactly four digits; Python's `datetime`
additionally rejects year 0 (`MINYEAR` is 1). -/
def parseYear (l : List Char) : Option Nat :=
  if l.length = 4 then
    match digitsToNat? l with
    | some n => if 1 ≤ n then some n else none
    | none => none
  else none

/-- Model of `datetime.strptime(time_value, "%Y-%m-%dT%H:%M:%S")`: exactly one
`T` separating a `%Y-%m-%d` date from a `%H:%M:%S` time, with CPython's
per-field patterns and the `datetime` constructor's day-of-month validation.
Any other shape raises `ValueError` in Python, modelled as `none`. -/
def strptime_YmdTHMS (l : List Char) : Option DateTimeYmdHms :=
  match splitOnChar 'T' l with
  | [datePart, timePart] =>
      match splitOnChar '-' datePart, splitOnChar ':' timePart with
      | [y, m, d], [h, mi, s] =>
          match parseYear y, parseField 1 12 m, parseField 1 31 d,
                parseField 0 23 h, parseField 0 59 mi, parseField 0 59 s with
          | some yv, some mv, some dv, some hv, some miv, some sv =>
              if dv ≤ daysInMonth yv mv then
                some ⟨yv, mv, dv, hv, miv, sv⟩
              else none
          | _, _, _, _, _, _ => none
      | _, _ => none
  | _ => none

/-- Zero-pad a number to two digits, as `strftime` does for `%m`, `%d`, `%H`,
`%M` and `%S`. -/
def pad2 (n : Nat) : String :=
  if n < 10 then "0" ++ toString n else toString n

/-- Zero-pad a year to four digits, as `strftime` does for `%Y`. -/
def pad4 (n : Nat) : String :=
  if n < 10 then "000" ++ toString n
  else if n < 100 then "00" ++ toString n
  else if n < 1000 then "0" ++ toString n
  else toString n

/-- Model of `datetime.strftime(timestamp, "%Y-%m-%d %H:%M:%S")`. -/
def strftime_YmdHMS (t : DateTimeYmdHms) : String :=
  pad4 t.year ++ "-" ++ pad2 t.month ++ "-" ++ pad2 t.day ++ " " ++
  pad2 t.hour ++ ":" ++ pad2 t.minute ++ ":" ++ pad2 t.second

/-- Model of the `dateTime` branch of `SparqlInterface.__normalize_binding`
(database.py lines 83-88): if the last character is `Z` it is stripped (once),
the remainder is parsed with the single pattern `%Y-%m-%dT%H:%M:%S`, and the
result is re-rendered as `%Y-%m-%d %H:%M:%S`.  A parse failure (Python
`ValueError`, or `IndexError` on the empty string) makes coercion fail for the
field, modelled as `none`. -/
def normalize_dateTime (value : String) : Option String :=
  match value.data.getLast? with
  | none => none
  | some c =>
      let tv := if c = 'Z' then value.data.dropLast else value.data
      (strptime_YmdTHMS tv).map strftime_YmdHMS

/-! ## Free-text search filters (`datasets`, `authors`, `collections`) -/

/-- The `search_for` filter fragment built by `SparqlInterface.datasets`
(database.py lines 233-237): the user-supplied value is interpolated verbatim
into the double-quoted `CONTAINS` arguments. -/
def datasets_search_filter (search_for : String) : String :=
  "FILTER (CONTAINS(STR(?title),          \"" ++ search_for ++ "\") OR\n" ++
  "        CONTAINS(STR(?resource_title), \"" ++ search_for ++ "\") OR\n" ++
  "        CONTAINS(STR(?description),    \"" ++ search_for ++ "\") OR\n" ++
  "        CONTAINS(STR(?citation),       \"" ++ search_for ++ "\"))"

/-- The `search_for` filter fragment built by `SparqlInterface.authors`
(database.py lines 395-399), again interpolating the value verbatim. -/
def authors_search_filter (search_for : String) : String :=
  "FILTER (CONTAINS(STR(?first_name), \"" ++ search_for ++ "\") OR\n" ++
  "        CONTAINS(STR(?last_name),  \"" ++ search_for ++ "\") OR\n" ++
  "        CONTAINS(STR(?full_name),  \"" ++ search_for ++ "\") OR\n" ++
  "        CONTAINS(STR(?orcid_id),   \"" ++ search_for ++ "\"))"

/-- The `search_for` filter fragment built by `SparqlInterface.collections`
(database.py lines 687-691), identical in shape to the `datasets` one. -/
def collections_search_filter (search_for : String) : String :=
  "FILTER (CONTAINS(STR(?title),          \"" ++ search_for ++ "\") OR\n" ++
  "        CONTAINS(STR(?resource_title), \"" ++ search_for ++ "\") OR\n" ++
  "        CONTAINS(STR(?description),    \"" ++ search_for ++ "\") OR\n" ++
  "        CONTAINS(STR(?citation),       \"" ++ search_for ++ "\"))"

/-- Place a backslash before every double-quote character. -/
def escapeQuotesChars : List Char → List Char
  | [] => []
  | c :: rest =>
      if c = '"' then '\\' :: '"' :: escapeQuotesChars rest
      else c :: escapeQuotesChars rest

/-- Modelled from the spec: the quote-neutralizing escaping that the Filter
Builder applies to free-text values (`escape=True`); the `djehuty.utils.rdf`
module implementing it is not among the sources.  It matches the escaping
idiom the repository itself uses in `delete_article_reference`
(database.py line 493): each `"` becomes `\"`. -/
def escape_quotes (s : String) : String :=
  ⟨escapeQuotesChars s.data⟩

/-- What the spec claims `datasets` does: escape the `search_for` value
before embedding it in the `CONTAINS` fragment. -/
def datasets_search_filter_escaped (search_for : String) : String :=
  datasets_search_filter (escape_quotes search_for)

/-- What the spec claims `authors` does with `search_for`. -/
def authors_search_filter_escaped (search_for : String) : String :=
  authors_search_filter (escape_quotes search_for)

/-- What the spec claims `collections` does with `search_for`. -/
def collections_search_filter_escaped (search_for : String) : String :=
  collections_search_filter (escape_quotes search_for)

/-- Naive substring test on character lists. -/
def containsRun (needle : List Char) : List Char → Bool
  | [] => needle.isEmpty
  | c :: rest => needle.isPrefixOf (c :: rest) || containsRun needle rest

/-! ## Cache-invalidation traces -/

/-- The cache prefixes invalidated by `SparqlInterface.update_article`
(database.py lines 1620-1621), in order, before the update query runs. -/
def update_article_invalidations (article_version_id : Nat) : List String :=
  ["article", toString article_version_id ++ "_article"]

/-- The cache prefixes invalidated during `SparqlInterface.insert_file`
(database.py lines 1390-1434), in order: `"article"` is invalidated
unconditionally before the insert query runs; when the insert succeeds, an
`article_version_id` was supplied and `is_link_only` is truthy, the nested
`update_article` call contributes its own invalidations; the subsequent
`insert_article_file` call invalidates nothing. -/
def insert_file_invalidations (insert_succeeds : Bool)
    (article_version_id : Option Nat) (is_link_only : Bool) : List String :=
  ["article"] ++
    (if insert_succeeds then
      match article_version_id with
      | some ver => if is_link_only then update_article_invalidations ver else []
      | none => []
    else [])

/-- The cache prefixes invalidated by `SparqlInterface.delete_collection`
(database.py lines 1888-1896): the procedure renders and runs the
`delete_collection` template and performs no cache invalidation at all. -/
def delete_collection_invalidations : List String := []

/-! ## Identifier allocation (`self.ids`, a `counters.IdGenerator`) -/

/-- Modelled from the spec: the Identifier Allocator keeps one monotonically
increasing counter per kind name, with atomic increment-and-read
(`next_id`); the `djehuty.utils.counters` module implementing `IdGenerator`
is not among the sources.  Counters are an association list from kind name
to current value; `next_id` increments (from 0 when the kind is new) and
returns the new value. -/
def next_id (gen : List (String × Nat)) (kind : String) : Nat × List (String × Nat) :=
  let n := (gen.lookup kind).getD 0 + 1
  (n, (kind, n) :: gen)

/-- The identifier-allocation step of `SparqlInterface.insert_tag`
(database.py line 1327): `tag_id = self.ids.next_id("\x7bitem_type\x7d_tag")`.
The string is a plain literal (the `f` prefix is absent), so the counter key
is the literal text `\x7bitem_type\x7d_tag` regardless of `item_type`. -/
def insert_tag_alloc (gen : List (String × Nat)) (item_type : String) :
    Nat × List (String × Nat) :=
  next_id gen "\x7bitem_type\x7d_tag"

/-- The identifier-allocation step of `SparqlInterface.insert_item_category`
(database.py line 1181), which does interpolate:
`link_id = self.ids.next_id(f"\x7bitem_type\x7d_category")`. -/
def insert_item_category_alloc (gen : List (String × Nat)) (item_type : String) :
    Nat × List (String × Nat) :=
  next_id gen (item_type ++ "_category")

/-- The version-id allocation step of `SparqlInterface.insert_collection`
(database.py lines 1755-1756): when no `collection_version_id` is supplied it
draws `self.ids.next_id("article")` — the `article` counter, not a
collection counter. -/
def insert_collection_alloc (gen : List (String × Nat))
    (collection_version_id : Option Nat) : Nat × List (String × Nat) :=
  match collection_version_id with
  | some v => (v, gen)
  | none => next_id gen "article"

/-- The version-id allocation step of `SparqlInterface.insert_article`
(database.py lines 800-801): a fresh id comes from the `article` counter. -/
def insert_article_alloc (gen : List (String × Nat))
    (article_version_id : Option Nat) : Nat × List (String × Nat) :=
  match article_version_id with
  | some v => (v, gen)
  | none => next_id gen "article"

/-! ## Startup state loading (`SparqlInterface.load_state`) -/

/-- What the store reports for one entity kind's highest-id query, as seen by
`SparqlInterface.__highest_id` through `__run_query` (which swallows network
errors into an empty result list). -/
inductive KindReply
  /-- The SPARQL endpoint is unreachable: `__run_query` returns `[]`. -/
  | unreachable
  /-- The query succeeds but returns no rows. -/
  | noRows
  /-- The query returns a first row that has no `id` binding. -/
  | rowWithoutId
  /-- The query returns a first row whose `id` binding is `n`. -/
  | rowWithId (n : Nat)
deriving DecidableEq

/-- Model of `SparqlInterface.__highest_id` (database.py lines 155-168):
`results[0]["id"]` on the query result; an `IndexError` (no rows, which is
also what an unreachable store degrades to) returns `0`; a `KeyError`
(row without an `id` binding) returns `None`. -/
def highest_id : KindReply → Option Nat
  | KindReply.unreachable => some 0
  | KindReply.noRows => some 0
  | KindReply.rowWithoutId => none
  | KindReply.rowWithId n => some n

/-- Per-kind counter state of the allocator as `load_state` sees it:
kind name to possibly-unset value. -/
abbrev IdStore := List (String × Option Nat)

/-- Modelled from the spec: `IdGenerator.set_id(value, kind)` stores the given
(possibly absent) value for the kind; the `djehuty.utils.counters` module is
not among the sources. -/
def set_id (store : IdStore) (value : Option Nat) (kind : String) : IdStore :=
  (kind, value) :: store

/-- Modelled from the spec: `IdGenerator.current_id(kind)` returns the stored
value, or `None` when the kind is unset. -/
def current_id (store : IdStore) (kind : String) : Option Nat :=
  (store.lookup kind).getD none

/-- Model of the per-kind loop of `SparqlInterface.load_state`
(database.py lines 48-64): for each kind it stores the `__highest_id` result
and immediately raises `UnknownDatabaseState` when `current_id` is `None`.
Only `EmptyDatabase` is caught (and nothing in these paths raises it), so
`UnknownDatabaseState` propagates out of `load_state`; this is modelled as a
`none` outcome.  The first component records the kinds attempted before the
loop ended. -/
def load_state_loop (reply : String → KindReply) :
    List String → IdStore → List String × Option IdStore
  | [], store => ([], some store)
  | k :: rest, store =>
      if (current_id (set_id store (highest_id (reply k)) k) k).isNone then
        ([k], none)
      else
        ((k :: (load_state_loop reply rest (set_id store (highest_id (reply k)) k)).1),
         (load_state_loop reply rest (set_id store (highest_id (reply k)) k)).2)

/-- A kind-reply assignment where the first kind's highest-id row lacks the
`id` binding while every other kind answers normally. -/
def replyFirstKindBroken : String → KindReply :=
  fun k => if k = "article" then KindReply.rowWithoutId else KindReply.rowWithId 5

/-! ## Query execution (`SparqlInterface.__run_query`) -/

/-- Outcome of one attempt to execute a SPARQL query, mirroring the exception
classes `__run_query` distinguishes: success, `URLError` (connectivity),
`SPARQLExceptions.QueryBadFormed`, and any other `Exception`. -/
inductive QueryOutcome
  | success (rows : List Nat)
  | urlError
  | badFormed
  | otherError
deriving DecidableEq

/-- Log events emitted by `__run_query` and `__log_query`. -/
inductive LogEvent
  /-- `"Connection to the SPARQL endpoint seems down."` -/
  | connectionDown
  /-- `"Connection to the SPARQL endpoint seems up again."` -/
  | connectionUp
  /-- `"Badly formed SPARQL query:"` -/
  | badlyFormed
  /-- `"SPARQL query failed."` -/
  | queryFailed
  /-- `"Exception: ..."` -/
  | exceptionDetail
  /-- `__log_query (query)`: the offending query text. -/
  | queryText (q : String)
deriving DecidableEq

/-- Model of one execution of `SparqlInterface.__run_query`
(database.py lines 117-153), ignoring the cache path: given the connectivity
flag `sparql_is_up` and the query text, it returns the result rows, the new
flag value, and the log events in order.  All three failure classes are
swallowed and return the empty list; only the bad-formed and generic branches
log the query text, and the connectivity branches log only on flag
transitions. -/
def run_query_step (up : Bool) (q : String) :
    QueryOutcome → List Nat × Bool × List LogEvent
  | QueryOutcome.success rows =>
      (rows, true, if up then [] else [LogEvent.connectionUp])
  | QueryOutcome.urlError =>
      ([], false, if up then [LogEvent.connectionDown] else [])
  | QueryOutcome.badFormed =>
      ([], up, [LogEvent.badlyFormed, LogEvent.queryText q])
  | QueryOutcome.otherError =>
      ([], up, [LogEvent.queryFailed, LogEvent.exceptionDetail, LogEvent.queryText q])

/-- A sequence of query executions threading the connectivity flag through
`run_query_step`, returning the final flag and the concatenated log. -/
def run_queries (up : Bool) : List (String × QueryOutcome) → Bool × List LogEvent
  | [] => (up, [])
  | (q, o) :: rest =>
      ((run_queries (run_query_step up q o).2.1 rest).1,
       (run_query_step up q o).2.2 ++ (run_queries (run_query_step up q o).2.1 rest).2)

/-- The connectivity-flag update performed by `__run_query`: success restores
the flag, `URLError` clears it, the other error classes leave it unchanged. -/
def flag_step (up : Bool) : QueryOutcome → Bool
  | QueryOutcome.success _ => true
  | QueryOutcome.urlError => false
  | QueryOutcome.badFormed => up
  | QueryOutcome.otherError => up

/-- Whether a log event is one of the two connectivity-transition messages. -/
def is_conn_event : LogEvent → Bool
  | LogEvent.connectionDown => true
  | LogEvent.connectionUp => true
  | _ => false

/-- The connectivity-transition messages contained in a log, in order. -/
def conn_events (l : List LogEvent) : List LogEvent :=
  l.filter is_conn_event

/-- The spec's description of connectivity logging: walking the query
sequence with the flag update, an up-to-down transition emits the
connection-down message once and a down-to-up transition emits the
recovery message once; nothing else is emitted. -/
def transition_events (up : Bool) : List (String × QueryOutcome) → List LogEvent
  | [] => []
  | (_, o) :: rest =>
      (if up && !(flag_step up o) then [LogEvent.connectionDown]
       else if !up && flag_step up o then [LogEvent.connectionUp]
       else []) ++ transition_events (flag_step up o) rest

/-! ## Category and collection-article link replacement -/

/-- Python truthiness of an optional list argument (`if results and
categories:`): `None` and the empty list are falsy. -/
def listTruthy : Option (List Nat) → Bool
  | none => false
  | some l => !l.isEmpty

/-- Modelled from the spec: `delete_item_categories` (and its collection and
collection-article analogues) with no specific id removes every link of the
given version — delete-then-reinsert-all semantics; the SPARQL template files
are not among the sources.  Links are (version id, linked id) pairs. -/
def delete_links_for (ver : Nat) (st : List (Nat × Nat)) : List (Nat × Nat) :=
  st.filter (fun p => p.1 != ver)

/-- Inserting the listed ids as links of a version, one insert per list
element in order (`insert_item_category` / `insert_collection_article`
append one link record each). -/
def insert_links_for (ver : Nat) (vals : List Nat) (st : List (Nat × Nat)) :
    List (Nat × Nat) :=
  vals.foldl (fun s v => s ++ [(ver, v)]) st

/-- The linked ids a read returns for a version: category reads filter links
by the version id and project the linked id. -/
def links_of (ver : Nat) (st : List (Nat × Nat)) : List Nat :=
  (st.filter (fun p => p.1 == ver)).map Prod.snd

/-- The category-replacement step of `SparqlInterface.update_article`
(database.py lines 1622-1628): only when the update query returned a
non-empty result AND the `categories` argument is truthy are the version's
category links deleted and the listed categories re-inserted; otherwise the
links are untouched. -/
def update_article_categories (results_nonempty : Bool)
    (categories : Option (List Nat)) (article_version_id : Nat)
    (links : List (Nat × Nat)) : List (Nat × Nat) :=
  if results_nonempty && listTruthy categories then
    insert_links_for article_version_id (categories.getD [])
      (delete_links_for article_version_id links)
  else links

/-- The category-replacement step of `SparqlInterface.update_collection`
(database.py lines 1929-1932), same gating as for articles. -/
def update_collection_categories (results_nonempty : Bool)
    (categories : Option (List Nat)) (collection_version_id : Nat)
    (links : List (Nat × Nat)) : List (Nat × Nat) :=
  if results_nonempty && listTruthy categories then
    insert_links_for collection_version_id (categories.getD [])
      (delete_links_for collection_version_id links)
  else links

/-- The article-replacement step of `SparqlInterface.update_collection`
(database.py lines 1934-1937): only when the update succeeded AND the
`articles` argument is truthy are the collection's article links deleted and
re-inserted. -/
def update_collection_articles (results_nonempty : Bool)
    (articles : Option (List Nat)) (collection_version_id : Nat)
    (links : List (Nat × Nat)) : List (Nat × Nat) :=
  if results_nonempty && listTruthy articles then
    insert_links_for collection_version_id (articles.getD [])
      (delete_links_for collection_version_id links)
  else links

/-! ## Session-token account lookup and privileges -/

/-- An account row as returned by the `account_by_session_token` query:
the account id plus its other stored fields (which this model keeps
opaque). -/
structure AccountRow where
  account_id : Nat
  email : String
deriving DecidableEq

/-- The configuration-sourced privilege record kept in `self.privileges`. -/
structure Privileges where
  may_administer : Bool
  may_impersonate : Bool
deriving DecidableEq

/-- The value `account_by_session_token` returns on success: the stored row,
with the privilege fields merged in when the privileges mapping had an entry
for the account id and absent otherwise. -/
structure AccountResult where
  row : AccountRow
  privileges : Option Privileges
deriving DecidableEq

/-- Model of `SparqlInterface.account_by_session_token`
(database.py lines 2090-2106): no result row raises `IndexError`, caught and
turned into `None`; when a row is found, a missing entry in the privileges
mapping raises `KeyError`, caught and the account is returned unchanged (no
privilege fields merged, nothing raised). -/
def account_by_session_token (rows : List AccountRow)
    (privileges : Nat → Option Privileges) : Option AccountResult :=
  match rows with
  | [] => none
  | account :: _ =>
      match privileges account.account_id with
      | some p => some ⟨account, some p⟩
      | none => some ⟨account, none⟩

/-- Field access `account["may_" + task]` on the merged privilege fields:
`none` models the `KeyError` for a task that has no field. -/
def privilege_for_task (p : Privileges) (task : String) : Option Bool :=
  if task = "administer" then some p.may_administer
  else if task = "impersonate" then some p.may_impersonate
  else none

/-- Model of `SparqlInterface.__may_execute_role`
(database.py lines 2206-2216): a `None` account (`TypeError`) and a missing
`may_*` key (`KeyError`) both fall through to `False`. -/
def may_execute_role (acct : Option AccountResult) (task : String) : Bool :=
  match acct with
  | none => false
  | some a =>
      match a.privileges with
      | none => false
      | some p => (privilege_for_task p task).getD false

/-- Model of `SparqlInterface.may_administer` (database.py lines 2218-2220). -/
def may_administer (rows : List AccountRow)
    (privileges : Nat → Option Privileges) : Bool :=
  may_execute_role (account_by_session_token rows privileges) "administer"

/-- Model of `SparqlInterface.may_impersonate` (database.py lines 2222-2224). -/
def may_impersonate (rows : List AccountRow)
    (privileges : Nat → Option Privileges) : Bool :=
  may_execute_role (account_by_session_token rows privileges) "impersonate"

/-! ## Theorems -/

/-- Claim C1: the spec claims the `search_for` parameter of `datasets`,
`authors` and `collections` is escaped before being embedded inside the
`CONTAINS` filter fragments.  The code embeds the value verbatim: for the
one-character value `"` each rendered fragment contains a run of three
consecutive double quotes (the user quote closes the string literal), and
differs from the fragment the spec's escaping would produce. -/
theorem C1_search_for_not_escaped :
    containsRun ['\"', '\"', '\"'] (datasets_search_filter "\"").data = true ∧
    containsRun ['\"', '\"', '\"'] (authors_search_filter "\"").data = true ∧
    containsRun ['\"', '\"', '\"'] (collections_search_filter "\"").data = true ∧
    datasets_search_filter "\"" ≠ datasets_search_filter_escaped "\"" ∧
    authors_search_filter "\"" ≠ authors_search_filter_escaped "\"" ∧
    collections_search_filter "\"" ≠ collections_search_filter_escaped "\"" := by
  decide

/-- Claim C2: the spec claims inserting a file invalidates both the broad
`article` prefix and the specific version-scoped prefix, and that deleting a
collection invalidates the prefixes scoped to that collection.  The code's
`insert_file` invalidates only `article` for a successful non-link-only
insert with `article_version_id = 5` (the narrow prefix appears only via the
nested `update_article` when the file is link-only), and `delete_collection`
invalidates nothing. -/
theorem C2_underinvalidation :
    insert_file_invalidations true (some 5) false = ["article"] ∧
    "5_article" ∉ insert_file_invalidations true (some 5) false ∧
    insert_file_invalidations true (some 5) true =
      ["article", "article", "5_article"] ∧
    delete_collection_invalidations = [] := by
  decide

/-- Claim C3: the spec claims every insert draws from the counter of the
entity's own kind, with collection versions drawn from the collection counter
and article tags and collection tags drawn from distinct per-item-type tag
counters.  The code draws both tag kinds from the single literal counter
named `\x7bitem_type\x7d_tag` (the second tag continues the first tag's
counter and neither `article_tag` nor `collection_tag` is ever created), and
draws a fresh collection version id from the `article` counter (11 follows
10, the article counter, instead of 4 from the collection counter). -/
theorem C3_counter_namespaces :
    (insert_tag_alloc [] "article").1 = 1 ∧
    (insert_tag_alloc (insert_tag_alloc [] "article").2 "collection").1 = 2 ∧
    (insert_tag_alloc [] "article").2.lookup "article_tag" = none ∧
    (insert_tag_alloc [] "article").2.lookup "collection_tag" = none ∧
    (insert_item_category_alloc [] "article").2.lookup "article_category" = some 1 ∧
    (insert_collection_alloc [("article", 10), ("collection", 3)] none).1 = 11 := by
  decide

/-- Claim C7: for dateTime-typed cells, normalization strips a single
trailing `Z` if present, parses the remainder with the single pattern
`YYYY-MM-DDTHH:MM:SS`, and re-renders it with a space separator; both example
inputs normalize to `2021-05-03 10:15:00`, and other patterns (double `Z`,
space separator, wrong date separators, missing seconds) fail coercion. -/
theorem C7_dateTime_normalization :
    normalize_dateTime "2021-05-03T10:15:00" = some "2021-05-03 10:15:00" ∧
    normalize_dateTime "2021-05-03T10:15:00Z" = some "2021-05-03 10:15:00" ∧
    normalize_dateTime "2021-05-03T10:15:00ZZ" = none ∧
    normalize_dateTime "2021-05-03 10:15:00" = none ∧
    normalize_dateTime "2021/05/03T10:15:00" = none ∧
    normalize_dateTime "2021-05-03T10:15" = none ∧
    normalize_dateTime "" = none := by
  decide

/-- Claim C5 (counterexample): the claim that in each of the three failure
classes the offending query text is logged is false for connectivity
failures — a `URLError` with the flag up logs only the connection-down
message, and with the flag down logs nothing at all. -/
theorem C5_counterexample :
    LogEvent.queryText "SELECT" ∉ (run_query_step true "SELECT" QueryOutcome.urlError).2.2 ∧
    (run_query_step false "SELECT" QueryOutcome.urlError).2.2 = [] := by
  decide

/-- Claim C5 (amended): every failure class returns the empty result list
with no exception propagating; the offending query text is logged for
malformed-query and for other backend errors, while a connectivity failure
logs only the connection-down transition and never the query text. -/
theorem C5_error_degradation (up : Bool) (q : String) :
    (run_query_step up q QueryOutcome.urlError).1 = [] ∧
    (run_query_step up q QueryOutcome.badFormed).1 = [] ∧
    (run_query_step up q QueryOutcome.otherError).1 = [] ∧
    LogEvent.queryText q ∈ (run_query_step up q QueryOutcome.badFormed).2.2 ∧
    LogEvent.queryText q ∈ (run_query_step up q QueryOutcome.otherError).2.2 ∧
    LogEvent.queryText q ∉ (run_query_step up q QueryOutcome.urlError).2.2 := by
  cases up <;> simp [run_query_step]

/-- Looking a kind up after one `set_id` reads the stored value for that kind
and falls through to the previous state otherwise. -/
theorem current_id_cons (k0 k : String) (v : Option Nat) (store : IdStore) :
    current_id ((k0, v) :: store) k = if k = k0 then v else current_id store k := by
  by_cases h : k = k0
  · subst h
    simp [current_id, List.lookup]
  · have hb : (k == k0) = false := beq_eq_false_iff_ne.mpr h
    simp [current_id, List.lookup, hb, h]

/-- When every kind's highest-id lookup degrades through an unreachable
store, the load-state loop attempts every kind, completes without raising,
sets every processed kind's counter to 0, and leaves the other counters
unchanged. -/
theorem load_state_loop_unreachable (reply : String → KindReply)
    (h : ∀ k, reply k = KindReply.unreachable) (kinds : List String) :
    ∀ store : IdStore,
      (load_state_loop reply kinds store).1 = kinds ∧
      ∀ k : String,
        (load_state_loop reply kinds store).2.map (fun s => current_id s k)
          = some (if k ∈ kinds then some 0 else current_id store k) := by
  induction kinds with
  | nil =>
      intro store
      refine ⟨rfl, fun k => ?_⟩
      simp [load_state_loop]
  | cons k0 rest ih =>
      intro store
      have hk0 : highest_id (reply k0) = some 0 := by rw [h k0]; rfl
      have hcur : current_id (set_id store (highest_id (reply k0)) k0) k0
          = some 0 := by
        rw [hk0]
        simp [set_id, current_id, List.lookup]
      have hfst : (load_state_loop reply (k0 :: rest) store).1
          = k0 :: (load_state_loop reply rest
              (set_id store (highest_id (reply k0)) k0)).1 := by
        simp [load_state_loop, hcur]
      have hsnd : (load_state_loop reply (k0 :: rest) store).2
          = (load_state_loop reply rest
              (set_id store (highest_id (reply k0)) k0)).2 := by
        simp [load_state_loop, hcur]
      refine ⟨?_, fun k => ?_⟩
      · rw [hfst, (ih _).1]
      · rw [hsnd, (ih _).2 k, hk0]
        by_cases hk : k ∈ rest
        · simp [hk]
        · by_cases hk0' : k = k0
          · subst hk0'
            simp [hk, set_id, current_id_cons]
          · simp [hk, hk0', set_id, current_id_cons]

/-- Claim C4 (amended): if the store is unreachable at startup, `load_state`
does not crash — every kind is attempted, each highest-id lookup degrades to
an empty result, and every counter is set to 0 (not left unset).  The
`UnknownDatabaseState` condition, however, is raised inside the per-kind
loop as soon as one kind's counter is unset (a highest-id row without an
`id` binding) and propagates immediately, before the remaining kinds are
attempted; and a store reporting no rows sets the counter to 0 rather than
triggering the empty-database warning, whose `EmptyDatabase` trigger nothing
in these paths raises. -/
theorem C4_load_state_amended (reply : String → KindReply)
    (h : ∀ k, reply k = KindReply.unreachable)
    (kinds : List String) (store : IdStore) :
    (load_state_loop reply kinds store).1 = kinds ∧
    (load_state_loop reply kinds store).2.isSome = true ∧
    (∀ k ∈ kinds,
      (load_state_loop reply kinds store).2.map (fun s => current_id s k)
        = some (some 0)) ∧
    (load_state_loop replyFirstKindBroken ["article", "collection"] []).1
      = ["article"] ∧
    (load_state_loop replyFirstKindBroken ["article", "collection"] []).2
      = none ∧
    (load_state_loop (fun _ => KindReply.noRows) ["article"] []).2.map
      (fun s => current_id s "article") = some (some 0) := by
  obtain ⟨h1, h2⟩ := load_state_loop_unreachable reply h kinds store
  refine ⟨h1, ?_, ?_, by decide, by decide, by decide⟩
  · have h3 := h2 ""
    cases ho : (load_state_loop reply kinds store).2 with
    | none => rw [ho] at h3; simp at h3
    | some s => rfl
  · intro k hk
    rw [h2 k]
    simp [hk]

/-- Witness for C4 at the concrete unreachable-store scenario with two
kinds. -/
theorem C4_load_state_amended_witness :
    (load_state_loop (fun _ => KindReply.unreachable)
      ["article", "collection"] []).1 = ["article", "collection"] ∧
    (load_state_loop (fun _ => KindReply.unreachable)
      ["article", "collection"] []).2.map (fun s => current_id s "article")
      = some (some 0) :=
  ⟨(C4_load_state_amended (fun _ => KindReply.unreachable) (fun _ => rfl)
      ["article", "collection"] []).1,
   (C4_load_state_amended (fun _ => KindReply.unreachable) (fun _ => rfl)
      ["article", "collection"] []).2.2.1 "article" (by simp)⟩

/-- Claim C4 (counterexample): when the first kind's highest-id row lacks the
`id` binding, the `UnknownDatabaseState` condition arises after only the
first of two kinds has been attempted and propagates out of `load_state` —
refuting that the condition is surfaced only after all entity kinds have
been attempted. -/
theorem C4_counterexample :
    (load_state_loop replyFirstKindBroken ["article", "collection"] []).2
      = none ∧
    (load_state_loop replyFirstKindBroken ["article", "collection"] []).1
      ≠ ["article", "collection"] := by
  decide

/-- Claim C6: across any sequence of query executions starting from any flag
state, the connectivity messages `__run_query` emits are exactly the
transitions of the connectivity flag, in order: the connection-down error
once per up-to-down transition (not once per failed call) and the recovery
message once per down-to-up transition. -/
theorem C6_transition_logging (up : Bool) (outs : List (String × QueryOutcome)) :
    conn_events (run_queries up outs).2 = transition_events up outs := by
  induction outs generalizing up with
  | nil => simp [run_queries, conn_events, transition_events]
  | cons head rest ih =>
      obtain ⟨q, o⟩ := head
      have ih' : ∀ b, List.filter is_conn_event (run_queries b rest).2
          = transition_events b rest := by
        intro b
        simpa [conn_events] using ih b
      cases o <;> cases up <;>
        simp [run_queries, run_query_step, transition_events, flag_step,
              conn_events, List.filter_append, is_conn_event, ih']

/-- Appending links one by one is appending the whole mapped list. -/
theorem insert_links_eq_append (ver : Nat) (vals : List Nat)
    (st : List (Nat × Nat)) :
    insert_links_for ver vals st = st ++ vals.map (fun v => (ver, v)) := by
  induction vals generalizing st with
  | nil => simp [insert_links_for]
  | cons v vs ih =>
      show insert_links_for ver vs (st ++ [(ver, v)]) = _
      rw [ih]
      simp

/-- Reads distribute over appended link stores. -/
theorem links_of_append (ver : Nat) (a b : List (Nat × Nat)) :
    links_of ver (a ++ b) = links_of ver a ++ links_of ver b := by
  simp [links_of, List.filter_append]

/-- After deleting every link of a version, a read for it returns nothing. -/
theorem links_of_delete (ver : Nat) (st : List (Nat × Nat)) :
    links_of ver (delete_links_for ver st) = [] := by
  induction st with
  | nil => rfl
  | cons p ps ih =>
      rcases p with ⟨a, b⟩
      by_cases h : a = ver <;>
        simp [delete_links_for, links_of, h] at ih ⊢

/-- Reading back links freshly inserted for a version yields the inserted
ids in order. -/
theorem links_of_map_self (ver : Nat) (vals : List Nat) :
    links_of ver (vals.map (fun v => (ver, v))) = vals := by
  induction vals with
  | nil => rfl
  | cons v vs ih => simp [links_of] at ih ⊢; exact ih

/-- Claim C8: when `update_article` succeeds (non-empty update result) and a
non-empty `categories` list is supplied, the version's category links are
replaced with delete-then-reinsert-all semantics, so a subsequent category
read for that version returns exactly the new list. -/
theorem C8_update_article_replaces_categories (links : List (Nat × Nat))
    (article_version_id : Nat) (categories : List Nat) (h : categories ≠ []) :
    links_of article_version_id
      (update_article_categories true (some categories) article_version_id links)
      = categories := by
  have ht : listTruthy (some categories) = true := by
    cases categories with
    | nil => exact absurd rfl h
    | cons a l => rfl
  simp [update_article_categories, ht, insert_links_eq_append,
        links_of_append, links_of_delete, links_of_map_self]

/-- Witness for C8, the spec's end-to-end scenario 2: updating an article's
categories from `[1, 2]` to `[3]` makes a category read return exactly
`[3]`. -/
theorem C8_update_article_replaces_categories_witness :
    ([3] : List Nat) ≠ [] ∧
    links_of 7 (update_article_categories true (some [3]) 7 [(7, 1), (7, 2)])
      = [3] :=
  ⟨by decide,
   C8_update_article_replaces_categories [(7, 1), (7, 2)] 7 [3] (by decide)⟩

/-- Claim C9: the delete-then-reinsert of category links (and, for
collections, of article links) happens only when the update query returned a
non-empty result AND the supplied list is non-empty: passing `None` or an
empty list, or having the update return no rows, leaves every existing link
of the version unchanged, so an update cannot be used to clear these
links. -/
theorem C9_empty_list_is_noop (results_nonempty : Bool) (ver : Nat)
    (catLinks artLinks : List (Nat × Nat))
    (cats arts otherCats : Option (List Nat))
    (hc : cats = none ∨ cats = some []) (ha : arts = none ∨ arts = some []) :
    update_article_categories results_nonempty cats ver catLinks = catLinks ∧
    update_collection_categories results_nonempty cats ver catLinks = catLinks ∧
    update_collection_articles results_nonempty arts ver artLinks = artLinks ∧
    update_article_categories false otherCats ver catLinks = catLinks ∧
    update_collection_articles false otherCats ver artLinks = artLinks := by
  have hct : listTruthy cats = false := by
    rcases hc with h | h <;> subst h <;> rfl
  have hat : listTruthy arts = false := by
    rcases ha with h | h <;> subst h <;> rfl
  simp [update_article_categories, update_collection_categories,
        update_collection_articles, hct, hat]

/-- Witness for C9 at concrete inputs: a `None` categories argument, an empty
articles list, and a failed update each leave the links untouched. -/
theorem C9_empty_list_is_noop_witness :
    update_article_categories true none 7 [(7, 1)] = [(7, 1)] ∧
    update_collection_articles true (some []) 7 [(7, 2)] = [(7, 2)] ∧
    update_article_categories false (some [1, 2]) 7 [(7, 1)] = [(7, 1)] :=
  ⟨(C9_empty_list_is_noop true 7 [(7, 1)] [(7, 2)] none (some [])
      (some [1, 2]) (Or.inl rfl) (Or.inr rfl)).1,
   (C9_empty_list_is_noop true 7 [(7, 1)] [(7, 2)] none (some [])
      (some [1, 2]) (Or.inl rfl) (Or.inr rfl)).2.2.1,
   (C9_empty_list_is_noop true 7 [(7, 1)] [(7, 2)] none (some [])
      (some [1, 2]) (Or.inl rfl) (Or.inr rfl)).2.2.2.1⟩

/-- Claim C10: `account_by_session_token` returns `None` when the store
returns no account row; when a row is found but the privileges mapping has
no entry for its account id, the account is returned unchanged with no
privilege fields merged and nothing raised — and consequently
`may_administer` and `may_impersonate` return `False` for such accounts and
for invalid tokens. -/
theorem C10_missing_privileges (a : AccountRow) (rows : List AccountRow)
    (privileges : Nat → Option Privileges) (h : privileges a.account_id = none) :
    account_by_session_token [] privileges = none ∧
    account_by_session_token (a :: rows) privileges = some ⟨a, none⟩ ∧
    may_administer (a :: rows) privileges = false ∧
    may_impersonate (a :: rows) privileges = false ∧
    may_administer [] privileges = false ∧
    may_impersonate [] privileges = false := by
  simp [account_by_session_token, may_administer, may_impersonate,
        may_execute_role, h]

/-- Witness for C10 at a concrete account and an empty privileges mapping. -/
theorem C10_missing_privileges_witness :
    ((fun _ => none : Nat → Option Privileges) 42 = none) ∧
    account_by_session_token [] (fun _ => none) = none ∧
    account_by_session_token [⟨42, "a@example.org"⟩] (fun _ => none)
      = some ⟨⟨42, "a@example.org"⟩, none⟩ ∧
    may_administer [⟨42, "a@example.org"⟩] (fun _ => none) = false ∧
    may_impersonate [] (fun _ => none) = false :=
  ⟨rfl,
   (C10_missing_privileges ⟨42, "a@example.org"⟩ [] (fun _ => none) rfl).1,
   (C10_missing_privileges ⟨42, "a@example.org"⟩ [] (fun _ => none) rfl).2.1,
   (C10_missing_privileges ⟨42, "a@example.org"⟩ [] (fun _ => none) rfl).2.2.1,
   (C10_missing_privileges ⟨42, "a@example.org"⟩ [] (fun _ => none) rfl).2.2.2.2.2⟩

end Djehuty
